import Mathlib

/-!
Verification development for the gambarKaca campaign-escrow workflow.

Shallow embedding of the workflow-relevant parts of
`src/src/lib/api.ts`, `src/src/context/AppContext.tsx` and the modal
components bundled with them.  The Supabase tables are modelled as lists
inside a `DB` record; every api function is a pure function from `DB` to
a result together with the persisted `DB` (Supabase commits row updates
even when the subsequent `.single()` row-count check rejects the
response, so each operation returns the stored state alongside the
`Except` result).  Ids generated by the database are modelled by the
`nextId` counter.  Monetary amounts are `Int` (the code manipulates
decimal numbers only by addition and comparison).
-/

namespace GK

/-- Application status from `campaign_applications.status`. -/
inductive AppStatus
  | pending
  | approved
  | rejected
deriving DecidableEq

/-- Campaign status enumeration from `campaigns.status`. -/
inductive CampaignStatus
  | draft
  | active
  | paused
  | completed
  | rejected
deriving DecidableEq

/-- Order status enumeration from `orders.status`. -/
inductive OrderStatus
  | pending_shipment
  | shipped
  | delivered
  | review_submitted
  | completed
deriving DecidableEq

/-- Transaction type from `transactions.type`. -/
inductive TxType
  | credit
  | debit
deriving DecidableEq

/-- Earning status from `earnings.status`. -/
inductive EarningStatus
  | pending
  | paid
  | cancelled
deriving DecidableEq

/-- One element of the `orders.review_media` JSON array. -/
structure MediaItem where
  url : String
  mediaType : String
deriving DecidableEq

/-- Row of `campaigns` (fields the workflow claims use). -/
structure Campaign where
  id : Nat
  founderId : Nat
  price : Int
  status : CampaignStatus
deriving DecidableEq

/-- Row of `campaign_applications`. -/
structure Application where
  id : Nat
  campaignId : Nat
  talentId : Nat
  status : AppStatus
deriving DecidableEq

/-- Row of `orders`.  `reviewMedia = none` models a NULL `review_media`
column; `some l` models a stored JSON array `l`. -/
structure Order where
  id : Nat
  campaignId : Nat
  talentId : Nat
  founderId : Nat
  payout : Int
  status : OrderStatus
  deliveryAddress : Option String
  reviewMedia : Option (List MediaItem)
deriving DecidableEq

/-- Row of `transactions`.  The source field `type` is a Lean keyword,
so it is embedded as `ttype`. -/
structure Transaction where
  id : Nat
  userId : Nat
  ttype : TxType
  amount : Int
  description : String
  relatedOrderId : Option Nat
deriving DecidableEq

/-- Row of `earnings` (presentation-only `campaign_title` elided). -/
structure Earning where
  id : Nat
  talentId : Nat
  orderId : Nat
  amount : Int
  status : EarningStatus
deriving DecidableEq

/-- The database state visible to the client api layer. -/
structure DB where
  campaigns : List Campaign
  applications : List Application
  orders : List Order
  transactions : List Transaction
  earnings : List Earning
  nextId : Nat
deriving DecidableEq

/-- Error kinds raised by the api layer of `src/src/lib/api.ts`.
`alreadyApplied` is the thrown message "You have already applied to this
campaign."; `notSingle` is the `.single()` row-count rejection;
`notFound` is a failed inner join or missing row.  The spec error kinds
InsufficientFunds, InvalidTransition and AlreadyReleased have no
counterpart anywhere in the source. -/
inductive ApiError
  | alreadyApplied
  | notSingle
  | notFound
deriving DecidableEq

/-- The empty database. -/
def dbInit : DB := ⟨[], [], [], [], [], 0⟩

/-- From api.ts `createCampaign`: inserts a campaign row with the given
fields (presentation fields elided). -/
def createCampaign (founderId : Nat) (price : Int) (status : CampaignStatus)
    (db : DB) : Except ApiError Campaign × DB :=
  let c : Campaign := ⟨db.nextId, founderId, price, status⟩
  (Except.ok c, { db with campaigns := db.campaigns ++ [c], nextId := db.nextId + 1 })

/-- From api.ts `applyCampaign` (lines 480-504): selects the existing
applications for the (campaignId, talentId) pair with no status filter;
if any exist — whatever their status — it throws "You have already
applied to this campaign.", otherwise it inserts a `pending`
application.  The campaign row is never consulted. -/
def applyCampaign (campaignId talentId : Nat) (db : DB) :
    Except ApiError Application × DB :=
  let existing := db.applications.filter
    (fun a => a.campaignId == campaignId && a.talentId == talentId)
  if existing.length > 0 then
    (Except.error ApiError.alreadyApplied, db)
  else
    let a : Application := ⟨db.nextId, campaignId, talentId, AppStatus.pending⟩
    (Except.ok a, { db with applications := db.applications ++ [a], nextId := db.nextId + 1 })

/-- From api.ts `updateApplicationStatus` (lines 506-517): updates the
`status` of every row matching the (campaignId, talentId) filter and
then applies `.single()`, which errors unless exactly one row matched.
The update itself carries no precondition: no pending check, no balance
check, no fund movement. -/
def updateApplicationStatus (campaignId talentId : Nat) (status : AppStatus)
    (db : DB) : Except ApiError Application × DB :=
  let db2 : DB := { db with
    applications := db.applications.map
      (fun a => if a.campaignId == campaignId && a.talentId == talentId then
          { a with status := status } else a) }
  match db.applications.filter
      (fun a => a.campaignId == campaignId && a.talentId == talentId) with
  | [a] => (Except.ok { a with status := status }, db2)
  | _ => (Except.error ApiError.notSingle, db2)

/-- Insert payload of api.ts `createOrder`. -/
structure OrderInput where
  campaignId : Nat
  talentId : Nat
  founderId : Nat
  status : OrderStatus
  payout : Int
  deliveryAddress : Option String
deriving DecidableEq

/-- From api.ts `createOrder` (lines 568-596): inserts an order row with
the caller-supplied status and payout; the select joins `campaigns`
with an inner join, so the call fails when the campaign row is missing.
`review_media` starts NULL. -/
def createOrder (d : OrderInput) (db : DB) : Except ApiError Order × DB :=
  if db.campaigns.any (fun c => c.id == d.campaignId) then
    let o : Order := ⟨db.nextId, d.campaignId, d.talentId, d.founderId,
      d.payout, d.status, d.deliveryAddress, none⟩
    (Except.ok o, { db with orders := db.orders ++ [o], nextId := db.nextId + 1 })
  else
    (Except.error ApiError.notFound, db)

/-- Update payload of api.ts `updateOrder`: `none` fields are absent
from the update object. -/
structure OrderUpdates where
  status : Option OrderStatus
  deliveryAddress : Option String
  reviewMedia : Option (List MediaItem)
deriving DecidableEq

/-- Application of an `updateOrder` payload to a row. -/
def applyOrderUpdates (u : OrderUpdates) (o : Order) : Order :=
  { o with
    status := u.status.getD o.status,
    deliveryAddress := match u.deliveryAddress with
      | some a => some a
      | none => o.deliveryAddress,
    reviewMedia := match u.reviewMedia with
      | some l => some l
      | none => o.reviewMedia }

/-- From api.ts `updateOrder` (lines 598-622): applies the updates to
the row matching the id and returns it via `.single()`.  There is no
status-transition validation of any kind: whatever `status` the caller
passes is written, whatever the current status is. -/
def updateOrder (orderId : Nat) (u : OrderUpdates) (db : DB) :
    Except ApiError Order × DB :=
  let db2 : DB := { db with
    orders := db.orders.map
      (fun o => if o.id == orderId then applyOrderUpdates u o else o) }
  match db.orders.filter (fun o => o.id == orderId) with
  | [o] => (Except.ok (applyOrderUpdates u o), db2)
  | _ => (Except.error ApiError.notSingle, db2)

/-- Insert payload of api.ts `createTransaction`. -/
structure TxInput where
  userId : Nat
  ttype : TxType
  amount : Int
  description : String
  relatedOrderId : Option Nat
deriving DecidableEq

/-- From api.ts `createTransaction` (lines 670-702): unconditionally
inserts a transaction row.  No duplicate check, no balance check, no
link to order status. -/
def createTransaction (t : TxInput) (db : DB) : Except ApiError Transaction × DB :=
  let tx : Transaction := ⟨db.nextId, t.userId, t.ttype, t.amount,
    t.description, t.relatedOrderId⟩
  (Except.ok tx, { db with transactions := db.transactions ++ [tx], nextId := db.nextId + 1 })

/-- Insert payload of api.ts `createEarning`. -/
structure EarningInput where
  talentId : Nat
  orderId : Nat
  amount : Int
  status : EarningStatus
deriving DecidableEq

/-- From api.ts `createEarning` (lines 751-777): unconditionally inserts
an earning row; no per-order uniqueness check. -/
def createEarning (e : EarningInput) (db : DB) : Except ApiError Earning × DB :=
  let er : Earning := ⟨db.nextId, e.talentId, e.orderId, e.amount, e.status⟩
  (Except.ok er, { db with earnings := db.earnings ++ [er], nextId := db.nextId + 1 })

/-! Reachability through the public api operations. -/

/-- One public api operation together with its arguments. -/
inductive Op
  | createCampaignOp (founderId : Nat) (price : Int) (status : CampaignStatus)
  | applyCampaignOp (campaignId talentId : Nat)
  | updateApplicationStatusOp (campaignId talentId : Nat) (status : AppStatus)
  | createOrderOp (d : OrderInput)
  | updateOrderOp (orderId : Nat) (u : OrderUpdates)
  | createTransactionOp (t : TxInput)
  | createEarningOp (e : EarningInput)

/-- The database state persisted by one public operation (Supabase
commits the row changes whether or not the response shaping errors). -/
def applyOp (op : Op) (db : DB) : DB :=
  match op with
  | Op.createCampaignOp f p s => (createCampaign f p s db).2
  | Op.applyCampaignOp c t => (applyCampaign c t db).2
  | Op.updateApplicationStatusOp c t s => (updateApplicationStatus c t s db).2
  | Op.createOrderOp d => (createOrder d db).2
  | Op.updateOrderOp oid u => (updateOrder oid u db).2
  | Op.createTransactionOp t => (createTransaction t db).2
  | Op.createEarningOp e => (createEarning e db).2

/-- One step of the public api. -/
def stepR (db db2 : DB) : Prop := ∃ op, applyOp op db = db2

/-- States reachable from a starting state through the public api. -/
def Reachable (db db2 : DB) : Prop := Relation.ReflTransGen stepR db db2

/-! Escrow bookkeeping predicates. -/

/-- The orders recorded for an application pair. -/
def ordersFor (campaignId talentId : Nat) (db : DB) : List Order :=
  db.orders.filter (fun o => o.campaignId == campaignId && o.talentId == talentId)

/-- The hold (debit) transactions recorded against an order id. -/
def holdsFor (orderId : Nat) (db : DB) : List Transaction :=
  db.transactions.filter
    (fun t => t.ttype == TxType.debit && t.relatedOrderId == some orderId)

/-- The credit transactions recorded against an order id. -/
def creditsFor (orderId : Nat) (db : DB) : List Transaction :=
  db.transactions.filter
    (fun t => t.ttype == TxType.credit && t.relatedOrderId == some orderId)

/-- The earnings recorded against an order id. -/
def earningsFor (orderId : Nat) (db : DB) : List Earning :=
  db.earnings.filter (fun e => e.orderId == orderId)

/-- The approval-escrow invariant asserted by the spec: every approved
application has exactly one order, each such order has exactly one hold
debit, and every order belongs to an approved application. -/
def escrowInvariant (db : DB) : Bool :=
  (db.applications.all (fun a =>
    !(a.status == AppStatus.approved) ||
      ((ordersFor a.campaignId a.talentId db).length == 1 &&
        (ordersFor a.campaignId a.talentId db).all
          (fun o => (holdsFor o.id db).length == 1)))) &&
  (db.orders.all (fun o =>
    db.applications.any (fun a =>
      a.campaignId == o.campaignId && a.talentId == o.talentId &&
        a.status == AppStatus.approved)))

/-- Modelled from the spec: the approve path of `decideApplication`
(spec section 4.1).  The call site composing the three public api
operations (the campaign applicants modal) is not under src/; the spec
describes it as, in order, (a) set the application status to approved,
(b) create an order with payout = Campaign.price and status
pending_shipment, (c) append the hold debit for the founder.  Each step
is the faithful api.ts primitive; no rollback happens on failure, the
state reached so far is kept, exactly as sequential client calls
would. -/
def decideApplicationApprove (campaignId talentId : Nat) (db : DB) :
    Except ApiError Unit × DB :=
  match db.campaigns.filter (fun c => c.id == campaignId) with
  | [c] =>
    match updateApplicationStatus campaignId talentId AppStatus.approved db with
    | (Except.error e, db1) => (Except.error e, db1)
    | (Except.ok _, db1) =>
      match createOrder ⟨campaignId, talentId, c.founderId,
          OrderStatus.pending_shipment, c.price, none⟩ db1 with
      | (Except.error e, db2) => (Except.error e, db2)
      | (Except.ok o, db2) =>
        match createTransaction ⟨c.founderId, TxType.debit, c.price,
            "Payment hold for campaign", some o.id⟩ db2 with
        | (Except.error e, db3) => (Except.error e, db3)
        | (Except.ok _, db3) => (Except.ok (), db3)
  | _ => (Except.error ApiError.notFound, db)

/-- Release of an escrowed order, composed from the src ledger
primitives following spec section 4.2 (the composing call site is not
under src/): read the order row, mark it completed via `updateOrder`,
append the credit via `createTransaction`, record the earning via
`createEarning`.  The primitives are the faithful api.ts functions and
append unconditionally; nothing in src/ consults the previous order
status or raises an AlreadyReleased error. -/
def release (orderId : Nat) (db : DB) : Except ApiError Unit × DB :=
  match db.orders.filter (fun o => o.id == orderId) with
  | [o] =>
    match updateOrder orderId ⟨some OrderStatus.completed, none, none⟩ db with
    | (Except.error e, db1) => (Except.error e, db1)
    | (Except.ok _, db1) =>
      match createTransaction ⟨o.talentId, TxType.credit, o.payout,
          "Payment released", some orderId⟩ db1 with
      | (_, db2) =>
        match createEarning ⟨o.talentId, orderId, o.payout,
            EarningStatus.pending⟩ db2 with
        | (_, db3) => (Except.ok (), db3)
  | _ => (Except.error ApiError.notSingle, db)

/-! Balance exposure (claim C4). -/

/-- Row of `profiles` (fields the balance claims use; `wallet_balance`
is a nullable numeric column). -/
structure ProfileRow where
  id : Nat
  role : String
  wallet_balance : Option Int
deriving DecidableEq

/-- The founder-facing user model produced by conversion. -/
structure FounderUser where
  id : Nat
  walletBalance : Int
deriving DecidableEq

/-- From api.ts `convertProfileToUser` (lines 27-36), founder branch:
`walletBalance := Number(profile.wallet_balance) || 0` — read straight
from the cached profile column, with NULL mapped to 0.  The transaction
table plays no part. -/
def convertProfileToUser (p : ProfileRow) : FounderUser :=
  ⟨p.id, p.wallet_balance.getD 0⟩

/-- Transactions belonging to one user. -/
def userTransactions (userId : Nat) (txs : List Transaction) : List Transaction :=
  txs.filter (fun t => t.userId == userId)

/-- Sum of the credit amounts in a transaction list. -/
def creditSum (l : List Transaction) : Int :=
  ((l.filter (fun t => t.ttype == TxType.credit)).map (fun t => t.amount)).sum

/-- Sum of the debit amounts in a transaction list. -/
def debitSum (l : List Transaction) : Int :=
  ((l.filter (fun t => t.ttype == TxType.debit)).map (fun t => t.amount)).sum

/-- Modelled from the spec: the balance query of section 4.2, balance =
sum of credits minus sum of debits over the user transactions.  The
repository exposes no such recomputation; this definition is the
reference side of the claim C4 comparison. -/
def specLedgerBalance (userId : Nat) (txs : List Transaction) : Int :=
  creditSum (userTransactions userId txs) - debitSum (userTransactions userId txs)

/-- From the FounderDetailsModal component (totalSpent, line 1211 of the
bundled api.ts document): `reduce((sum, t) => sum + Number(t.amount), 0)`
over the founder transactions — every amount is added, credits and
debits alike. -/
def totalSpent (founderId : Nat) (txs : List Transaction) : Int :=
  (userTransactions founderId txs).foldl (fun s t => s + t.amount) 0

/-! Converted order model (claim C10). -/

/-- Delivery block of the converted order model. -/
structure DeliveryInfo where
  address : String
deriving DecidableEq

/-- Review submission block of the converted order model. -/
structure ReviewSubmission where
  media : List MediaItem
deriving DecidableEq

/-- The converted app-side order (presentation-only name fields
elided). -/
structure OrderApp where
  id : Nat
  status : OrderStatus
  payout : Int
  deliveryInfo : Option DeliveryInfo
  reviewSubmission : Option ReviewSubmission
deriving DecidableEq

/-- From api.ts `convertOrderToApp` (lines 76-100): `reviewSubmission`
is populated exactly when `review_media` is an array with length > 0;
a NULL column or an empty array yields `undefined` (here `none`). -/
def convertOrderToApp (o : Order) : OrderApp :=
  { id := o.id,
    status := o.status,
    payout := o.payout,
    deliveryInfo := match o.deliveryAddress with
      | some a => some ⟨a⟩
      | none => none,
    reviewSubmission := match o.reviewMedia with
      | some l => if l.length > 0 then some ⟨l⟩ else none
      | none => none }

/-! Review media deletion (claims C8 and C10). -/

/-- Which of the two required operations an invocation of
`deleteReviewMedia` actually attempted: the storage file removal, and
the removal of the media reference from the order row. -/
structure DeleteTrace where
  storageAttempted : Bool
  referenceRemovalAttempted : Bool
deriving DecidableEq

/-- From api.ts `deleteReviewMedia` (lines 929-935): URL-path parsing.
The pathname segments are searched for the `review-submissions` bucket
marker; the call is invalid when the marker is absent or is the last
segment, otherwise the storage file path is the remaining segments. -/
def extractStoragePath (pathParts : List String) : Option (List String) :=
  match pathParts.findIdx? (fun p => p == "review-submissions") with
  | none => none
  | some idx =>
    if idx == pathParts.length - 1 then none
    else some (pathParts.drop (idx + 1))

/-- The rewritten `review_media` value of api.ts `deleteReviewMedia`
(lines 952-957): the url is filtered out of the stored array (NULL read
as `[]`), and the result is written back as NULL — not as an empty
list — when no media item remains. -/
def removeUrl (mediaUrl : String) (rm : Option (List MediaItem)) :
    Option (List MediaItem) :=
  let updatedMedia := (rm.getD []).filter (fun m => !(m.url == mediaUrl))
  if updatedMedia.length > 0 then some updatedMedia else none

/-- From api.ts `deleteReviewMedia` (lines 926-966).  The storage
removal is an external effect, passed in as its outcome
`storageOutcome`.  Control flow as in the source: URL validation first,
then the storage removal — the function rethrows its failure and never
reaches the database step — then the order row is fetched and its
`review_media` array is rewritten via `removeUrl`.  Every failure is
rethrown to the caller (the outer catch only prefixes the message).
The returned trace records which of the two required operations the
invocation attempted. -/
def deleteReviewMedia (orderId : Nat) (mediaUrl : String)
    (pathParts : List String) (storageOutcome : Except String Unit)
    (db : DB) : Except String DB × DeleteTrace :=
  match extractStoragePath pathParts with
  | none => (Except.error "Invalid review media URL. File path not found.",
      ⟨false, false⟩)
  | some _ =>
    match storageOutcome with
    | Except.error msg => (Except.error msg, ⟨true, false⟩)
    | Except.ok _ =>
      match db.orders.filter (fun o => o.id == orderId) with
      | [o] =>
        let newMedia := removeUrl mediaUrl o.reviewMedia
        let newOrders := db.orders.map
          (fun x => if x.id == orderId then { x with reviewMedia := newMedia } else x)
        (Except.ok { db with orders := newOrders }, ⟨true, true⟩)
      | _ => (Except.error "Failed to fetch order for review_media update.",
          ⟨true, true⟩)

/-! Sync reconciliation (claim C7). -/

/-- A server-side snapshot of one order row, with the server write
timestamp. -/
structure OrderSnapshot where
  payload : Nat
  serverTimestamp : Nat
deriving DecidableEq

/-- A postgres_changes notification delivered to the
`subscribeToOrders` callback (api.ts lines 909-924): the payload
carries the changed row. -/
structure OrderChangePayload where
  entityId : Nat
  snapshot : OrderSnapshot
deriving DecidableEq

/-- From AppContext.tsx (subscriptions useEffect, lines 215-254): the
order-change callback ignores the notification payload entirely — no
timestamp is read, nothing is compared — and refetches the orders,
replacing the local state wholesale with whatever the fetch returned. -/
def handleOrderChange (_localSnap : Option OrderSnapshot)
    (_notif : OrderChangePayload) (refetched : Option OrderSnapshot) :
    Option OrderSnapshot :=
  refetched

/-- Sequential processing of order-change notifications, each paired
with the snapshot the triggered refetch returned for the order. -/
def processOrderNotifications (localSnap : Option OrderSnapshot)
    (events : List (OrderChangePayload × Option OrderSnapshot)) :
    Option OrderSnapshot :=
  events.foldl (fun l e => handleOrderChange l e.1 e.2) localSnap

/-- Modelled from the spec: the merge rule of section 4.3 — apply a
notification only if its serverTimestamp is newer than the locally held
snapshot.  Present as the reference side of the claim C7 comparison;
the code has no counterpart. -/
def specMergeRule (localSnap : Option OrderSnapshot) (n : OrderSnapshot) :
    Option OrderSnapshot :=
  match localSnap with
  | none => some n
  | some s => if s.serverTimestamp < n.serverTimestamp then some n else some s

/-! Data refresh (claim C9). -/

/-- The collections held in AppContext local state (message and talent
payloads modelled by their ids; only list identity matters here). -/
structure LocalMirror where
  campaigns : List Campaign
  orders : List Order
  transactions : List Transaction
  earnings : List Earning
  messages : List Nat
  founders : List FounderUser
  talents : List Nat
deriving DecidableEq

/-- Settled outcomes of the admin-branch fetches of `refreshData`
(AppContext.tsx lines 74-90, `Promise.allSettled`). -/
structure AdminFetchResults where
  campaignsResult : Except String (List Campaign)
  ordersResult : Except String (List Order)
  transactionsResult : Except String (List Transaction)
  earningsResult : Except String (List Earning)
  messagesResult : Except String (List Nat)
  foundersResult : Except String (List FounderUser)
  talentsResult : Except String (List Nat)

/-- Settled outcomes of the non-admin-branch fetches of `refreshData`
(AppContext.tsx lines 151-179); `talentsResult` is the founder-only
`getTalents` call wrapped in try/catch. -/
structure UserFetchResults where
  campaignsResult : Except String (List Campaign)
  ordersResult : Except String (List Order)
  transactionsResult : Except String (List Transaction)
  earningsResult : Except String (List Earning)
  messagesResult : Except String (List Nat)
  talentsResult : Except String (List Nat)

/-- A fulfilled fetch replaces the collection with its value; a
rejected fetch replaces it with the empty list (the per-source
`else setXxx([])` branches of `refreshData`). -/
def settleFetch {α : Type} (r : Except String (List α)) : List α :=
  match r with
  | Except.ok v => v
  | Except.error _ => []

/-- From AppContext.tsx `refreshData`, admin branch (lines 93-147):
every collection is replaced from its settled fetch result; the
previously held collections are never consulted. -/
def refreshDataAdmin (_prev : LocalMirror) (r : AdminFetchResults) : LocalMirror :=
  { campaigns := settleFetch r.campaignsResult,
    orders := settleFetch r.ordersResult,
    transactions := settleFetch r.transactionsResult,
    earnings := settleFetch r.earningsResult,
    messages := settleFetch r.messagesResult,
    founders := settleFetch r.foundersResult,
    talents := settleFetch r.talentsResult }

/-- From AppContext.tsx `refreshData`, non-admin branch (lines
149-184): the five shared collections are replaced from their settled
results; talents are fetched (and wiped on failure) only for founders,
otherwise cleared; founders are always cleared. -/
def refreshDataUser (isFounder : Bool) (_prev : LocalMirror)
    (r : UserFetchResults) : LocalMirror :=
  { campaigns := settleFetch r.campaignsResult,
    orders := settleFetch r.ordersResult,
    transactions := settleFetch r.transactionsResult,
    earnings := settleFetch r.earningsResult,
    messages := settleFetch r.messagesResult,
    founders := [],
    talents := if isFounder then settleFetch r.talentsResult else [] }

/-! Concrete states used by the counterexamples and witnesses. -/

/-- State reached from the empty database by creating one campaign
(founder 1, price 100, active), one pending application for talent 7,
and then approving it through `updateApplicationStatus` alone. -/
def dbApproveOnly : DB :=
  applyOp (Op.updateApplicationStatusOp 0 7 AppStatus.approved)
    (applyOp (Op.applyCampaignOp 0 7)
      (applyOp (Op.createCampaignOp 1 100 CampaignStatus.active) dbInit))

/-- Campaign of founder 1 priced 100, pending application of talent 7,
and a founder ledger holding a single 50 credit: ledger balance 50,
strictly below the campaign price. -/
def dbLowBalance : DB :=
  ⟨[⟨0, 1, 100, CampaignStatus.active⟩],
   [⟨1, 0, 7, AppStatus.pending⟩],
   [],
   [⟨2, 1, TxType.credit, 50, "Top up", none⟩],
   [],
   3⟩

/-- One order (id 0, talent 7, founder 1, payout 100) awaiting release
in status review_submitted. -/
def dbReviewSubmitted : DB :=
  ⟨[], [], [⟨0, 0, 7, 1, 100, OrderStatus.review_submitted, none, none⟩], [], [], 1⟩

/-- The state persisted by a `release` invocation (the error case keeps
the input state; `release` only errors when the order row is absent). -/
def afterRelease (orderId : Nat) (db : DB) : DB := (release orderId db).2

/-- One order already in the terminal completed status. -/
def dbCompletedOrder : DB :=
  ⟨[], [], [⟨0, 0, 7, 1, 100, OrderStatus.completed, none, none⟩], [], [], 1⟩

/-- Active campaign plus a rejected application of talent 7 for it. -/
def dbRejectedApplicant : DB :=
  ⟨[⟨0, 1, 100, CampaignStatus.active⟩], [⟨1, 0, 7, AppStatus.rejected⟩], [], [], [], 2⟩

/-- Paused campaign with no applications. -/
def dbPausedCampaign : DB :=
  ⟨[⟨0, 1, 100, CampaignStatus.paused⟩], [], [], [], [], 1⟩

/-- A profile row with a cached wallet_balance of 100. -/
def profileCached : ProfileRow := ⟨1, "founder", some 100⟩

/-- Ledger of user 1 holding a single 50 credit. -/
def txsOneCredit : List Transaction := [⟨0, 1, TxType.credit, 50, "Top up", none⟩]

/-- Ledger of user 1 holding a 10 credit and a 20 debit. -/
def txsMixed : List Transaction :=
  [⟨0, 1, TxType.credit, 10, "Top up", none⟩,
   ⟨1, 1, TxType.debit, 20, "Payment hold", none⟩]

/-- A storage URL path whose segments contain the bucket marker
followed by a file path. -/
def pathValid : List String :=
  ["", "storage", "v1", "object", "public", "review-submissions", "orders", "file.png"]

/-- Order 0 carrying two review media items. -/
def dbTwoMedia : DB :=
  ⟨[], [],
   [⟨0, 0, 7, 1, 100, OrderStatus.review_submitted, none,
     some [⟨"u1", "image"⟩, ⟨"u2", "image"⟩]⟩],
   [], [], 1⟩

/-- Order 0 carrying exactly one review media item. -/
def dbOneMedia : DB :=
  ⟨[], [],
   [⟨0, 0, 7, 1, 100, OrderStatus.review_submitted, none, some [⟨"u1", "image"⟩]⟩],
   [], [], 1⟩

/-- The stored state after removing the only media item of `dbOneMedia`
order 0: the column is NULL, not an empty list. -/
def dbOneMediaCleared : DB :=
  ⟨[], [],
   [⟨0, 0, 7, 1, 100, OrderStatus.review_submitted, none, none⟩],
   [], [], 1⟩

/-- Campaign of founder 1 priced 100 with a pending application of
talent 7 and no orders, transactions or earnings. -/
def dbPendingApp : DB :=
  ⟨[⟨0, 1, 100, CampaignStatus.active⟩], [⟨1, 0, 7, AppStatus.pending⟩], [], [], [], 2⟩

/-- The newer order snapshot (server timestamp 10). -/
def snapNew : OrderSnapshot := ⟨1, 10⟩

/-- The older order snapshot (server timestamp 5). -/
def snapOld : OrderSnapshot := ⟨0, 5⟩

/-- Notification carrying the newer snapshot. -/
def notifNew : OrderChangePayload := ⟨42, snapNew⟩

/-- Notification carrying the older snapshot. -/
def notifOld : OrderChangePayload := ⟨42, snapOld⟩

/-- A non-empty previously held local mirror. -/
def mirrorPrev : LocalMirror :=
  ⟨[⟨0, 1, 100, CampaignStatus.active⟩],
   [⟨0, 0, 7, 1, 100, OrderStatus.shipped, none, none⟩],
   [⟨0, 1, TxType.credit, 50, "Top up", none⟩],
   [⟨0, 7, 0, 100, EarningStatus.pending⟩],
   [3], [⟨1, 100⟩], [7]⟩

/-- Admin fetch results where the orders fetch rejected and the other
sources fulfilled. -/
def adminResultsOrdersFailed : AdminFetchResults :=
  ⟨Except.ok [⟨0, 1, 100, CampaignStatus.active⟩],
   Except.error "network",
   Except.ok [⟨0, 1, TxType.credit, 50, "Top up", none⟩],
   Except.ok [],
   Except.ok [3],
   Except.ok [⟨1, 100⟩],
   Except.ok [7]⟩

/-- Non-admin fetch results where the orders fetch rejected. -/
def userResultsOrdersFailed : UserFetchResults :=
  ⟨Except.ok [⟨0, 1, 100, CampaignStatus.active⟩],
   Except.error "network",
   Except.ok [],
   Except.ok [],
   Except.ok [3],
   Except.ok [7]⟩

/-- Equality of api results is decidable (used to evaluate the
operations on concrete states). -/
instance {ε α : Type} [DecidableEq ε] [DecidableEq α] : DecidableEq (Except ε α) := by
  intro a b
  cases a <;> cases b
  case error.error e f =>
    exact decidable_of_iff (e = f) (by constructor <;> intro h <;> simp_all)
  case error.ok e f => exact Decidable.isFalse (by intro h; cases h)
  case ok.error e f => exact Decidable.isFalse (by intro h; cases h)
  case ok.ok e f =>
    exact decidable_of_iff (e = f) (by constructor <;> intro h <;> simp_all)

/-! Helper lemmas shared by the claim proofs. -/

/-- Filtering after a map that does not change the filter predicate is
mapping after filtering. -/
theorem filter_map_invar {α : Type} (f : α → α) (p : α → Bool) (l : List α)
    (h : ∀ x, p (f x) = p x) : (l.map f).filter p = (l.filter p).map f := by
  induction l with
  | nil => rfl
  | cons a t ih =>
    cases hp : p a with
    | false => simp [List.filter_cons, hp, h a, ih]
    | true => simp [List.filter_cons, hp, h a, ih]

/-- The element of a singleton filter result satisfies the predicate. -/
theorem pred_of_filter_singleton {α : Type} (p : α → Bool) (l : List α) (o : α)
    (h : l.filter p = [o]) : p o = true := by
  have hm : o ∈ l.filter p := by rw [h]; exact List.mem_singleton_self o
  exact (List.mem_filter.mp hm).2

/-- Any member of the list satisfying the predicate equals the element
of a singleton filter result. -/
theorem eq_of_filter_singleton {α : Type} (p : α → Bool) (l : List α) (o : α)
    (h : l.filter p = [o]) : ∀ y ∈ l, p y = true → y = o := by
  intro y hy hp
  have hm : y ∈ l.filter p := List.mem_filter.mpr ⟨hy, hp⟩
  rw [h] at hm
  simpa using hm

/-- A singleton filter result witnesses `List.any`. -/
theorem any_of_filter_singleton {α : Type} (p : α → Bool) (l : List α) (o : α)
    (h : l.filter p = [o]) : l.any p = true := by
  have hm : o ∈ l.filter p := by rw [h]; exact List.mem_singleton_self o
  have hmem := List.mem_filter.mp hm
  exact List.any_eq_true.mpr ⟨o, hmem.1, hmem.2⟩

/-- Folding amount addition equals the initial value plus the amount
sum. -/
theorem foldl_add_amount (l : List Transaction) (i : Int) :
    l.foldl (fun s t => s + t.amount) i = i + (l.map (fun t => t.amount)).sum := by
  induction l generalizing i with
  | nil => simp
  | cons a t ih => simp [ih]; ring

/-- The amount sum of a transaction list splits into the credit part
plus the debit part. -/
theorem amount_sum_split (l : List Transaction) :
    (l.map (fun t => t.amount)).sum = creditSum l + debitSum l := by
  induction l with
  | nil => simp [creditSum, debitSum]
  | cons a t ih =>
    cases ha : a.ttype with
    | credit =>
      simp only [List.map_cons, List.sum_cons, ih, creditSum, debitSum,
        List.filter_cons, ha]
      norm_num [beq_self_eq_true]
      rw [if_neg (fun h => TxType.noConfusion h)]
      ring
    | debit =>
      simp only [List.map_cons, List.sum_cons, ih, creditSum, debitSum,
        List.filter_cons, ha]
      norm_num [beq_self_eq_true]
      rw [if_neg (fun h => TxType.noConfusion h)]
      ring

/-- The review_media value written by `removeUrl` is never an empty
list. -/
theorem removeUrl_ne_some_nil (mediaUrl : String) (rm : Option (List MediaItem)) :
    removeUrl mediaUrl rm ≠ some [] := by
  simp only [removeUrl]
  by_cases h : ((rm.getD []).filter (fun m => !(m.url == mediaUrl))).length > 0
  · rw [if_pos h]
    intro hc
    injection hc with h2
    rw [h2] at h
    simp at h
  · rw [if_neg h]
    intro hc
    cases hc

/-- One `release` invocation on a state holding the order row succeeds,
marks the row completed, and appends exactly one credit and one earning
for the order. -/
theorem releaseStep (db : DB) (orderId : Nat) (o : Order)
    (h : db.orders.filter (fun x => x.id == orderId) = [o]) :
    ∃ db1, release orderId db = (Except.ok (), db1) ∧
      db1.orders.filter (fun x => x.id == orderId) =
        [{ o with status := OrderStatus.completed }] ∧
      (creditsFor orderId db1).length = (creditsFor orderId db).length + 1 ∧
      (earningsFor orderId db1).length = (earningsFor orderId db).length + 1 := by
  have hau : ∀ x : Order,
      applyOrderUpdates ⟨some OrderStatus.completed, none, none⟩ x =
        { x with status := OrderStatus.completed } := by
    intro x; rfl
  have hu : updateOrder orderId ⟨some OrderStatus.completed, none, none⟩ db =
      (Except.ok { o with status := OrderStatus.completed },
       { db with orders := db.orders.map (fun x => if x.id == orderId then { x with status := OrderStatus.completed } else x) }) := by
    simp only [updateOrder]
    rw [h]
    simp [hau]
  have h1 : release orderId db =
      (Except.ok (),
       { db with
          orders := db.orders.map (fun x => if x.id == orderId then { x with status := OrderStatus.completed } else x),
          transactions := db.transactions ++
            [⟨db.nextId, o.talentId, TxType.credit, o.payout, "Payment released", some orderId⟩],
          earnings := db.earnings ++ [⟨db.nextId + 1, o.talentId, orderId, o.payout, EarningStatus.pending⟩],
          nextId := db.nextId + 2 }) := by
    simp only [release]
    rw [h, hu]
    simp [createTransaction, createEarning]
  rw [h1]
  refine ⟨_, rfl, ?_, ?_, ?_⟩
  · have hpt : ∀ x : Order,
        ((if x.id == orderId then { x with status := OrderStatus.completed } else x).id ==
          orderId) = (x.id == orderId) := by
      intro x
      by_cases hx : (x.id == orderId) = true
      · simp [hx]
      · simp [hx]
    have hcomm := filter_map_invar
      (fun x : Order => if x.id == orderId then { x with status := OrderStatus.completed } else x)
      (fun x => x.id == orderId) db.orders hpt
    simp only at hcomm ⊢
    rw [hcomm, h]
    have hp := pred_of_filter_singleton _ _ _ h
    simp only [List.map_cons, List.map_nil]
    rw [if_pos hp]
  · simp [creditsFor, List.filter_append, beq_self_eq_true]
  · simp [earningsFor, List.filter_append, beq_self_eq_true]

/-- Claim C1, counterexample: approval is not atomic with escrow setup.
The state `dbApproveOnly`, reached from the empty database through
three public operations (create a campaign, submit an application,
update the application status to approved), holds an approved
application with no order and no hold debit — a partial application of
the approve compound is reachable through the public operations, so the
escrow invariant fails in a reachable state. -/
theorem C1_atomicity_counterexample :
    Reachable dbInit dbApproveOnly ∧ escrowInvariant dbApproveOnly = false := by
  constructor
  · exact Relation.ReflTransGen.head
      ⟨Op.createCampaignOp 1 100 CampaignStatus.active, rfl⟩
      (Relation.ReflTransGen.head ⟨Op.applyCampaignOp 0 7, rfl⟩
        (Relation.ReflTransGen.single
          ⟨Op.updateApplicationStatusOp 0 7 AppStatus.approved, rfl⟩))
  · decide

/-- Claim C1, amended: the three public operations are independent and
enforce no atomicity — an approved application without its order is
reachable (see the counterexample).  What does hold: when the approve
flow runs to completion (updateApplicationStatus to approved, then
createOrder with the campaign price, then createTransaction for the
hold), the application pair ends approved with exactly one order
carrying payout = Campaign.price and exactly one hold debit for it. -/
theorem C1_atomicity_amended (db : DB) (campaignId talentId : Nat)
    (c : Campaign) (a : Application)
    (hc : db.campaigns.filter (fun x => x.id == campaignId) = [c])
    (ha : db.applications.filter
      (fun x => x.campaignId == campaignId && x.talentId == talentId) = [a])
    (hno : ordersFor campaignId talentId db = [])
    (hnh : holdsFor db.nextId db = []) :
    (decideApplicationApprove campaignId talentId db).1 = Except.ok () ∧
    ((decideApplicationApprove campaignId talentId db).2.applications.filter
        (fun x => x.campaignId == campaignId && x.talentId == talentId)) =
      [{ a with status := AppStatus.approved }] ∧
    ordersFor campaignId talentId (decideApplicationApprove campaignId talentId db).2 =
      [⟨db.nextId, campaignId, talentId, c.founderId, c.price, OrderStatus.pending_shipment, none, none⟩] ∧
    holdsFor db.nextId (decideApplicationApprove campaignId talentId db).2 =
      [⟨db.nextId + 1, c.founderId, TxType.debit, c.price, "Payment hold for campaign", some db.nextId⟩] := by
  have h1 : updateApplicationStatus campaignId talentId AppStatus.approved db =
      (Except.ok { a with status := AppStatus.approved },
       { db with applications := db.applications.map (fun x => if x.campaignId == campaignId && x.talentId == talentId then { x with status := AppStatus.approved } else x) }) := by
    simp only [updateApplicationStatus]
    rw [ha]
  have hany : db.campaigns.any (fun x => x.id == campaignId) = true :=
    any_of_filter_singleton _ _ _ hc
  have hE : decideApplicationApprove campaignId talentId db =
      (Except.ok (),
       { db with
          applications := db.applications.map (fun x => if x.campaignId == campaignId && x.talentId == talentId then { x with status := AppStatus.approved } else x),
          orders := db.orders ++ [⟨db.nextId, campaignId, talentId, c.founderId, c.price, OrderStatus.pending_shipment, none, none⟩],
          transactions := db.transactions ++ [⟨db.nextId + 1, c.founderId, TxType.debit, c.price, "Payment hold for campaign", some db.nextId⟩],
          nextId := db.nextId + 2 }) := by
    simp only [decideApplicationApprove]
    rw [hc, h1]
    simp [createOrder, hany, createTransaction]
  rw [hE]
  refine ⟨rfl, ?_, ?_, ?_⟩
  · have hpt : ∀ x : Application,
        ((if x.campaignId == campaignId && x.talentId == talentId then
          { x with status := AppStatus.approved } else x).campaignId == campaignId &&
         (if x.campaignId == campaignId && x.talentId == talentId then
          { x with status := AppStatus.approved } else x).talentId == talentId) =
        (x.campaignId == campaignId && x.talentId == talentId) := by
      intro x
      by_cases hx : (x.campaignId == campaignId && x.talentId == talentId) = true
      · simp [hx]
      · simp [hx]
    have hcomm := filter_map_invar
      (fun x : Application => if x.campaignId == campaignId && x.talentId == talentId then { x with status := AppStatus.approved } else x)
      (fun x => x.campaignId == campaignId && x.talentId == talentId)
      db.applications hpt
    simp only at hcomm ⊢
    rw [hcomm, ha]
    have hp := pred_of_filter_singleton _ _ _ ha
    simp only [List.map_cons, List.map_nil]
    rw [if_pos hp]
  · simp only [ordersFor] at hno ⊢
    simp [List.filter_append, hno]
  · simp only [holdsFor] at hnh ⊢
    simp [List.filter_append, hnh]

/-- Witness for the amended claim C1 at a concrete state: one campaign
(id 0, founder 1, price 100) and one pending application (talent 7). -/
theorem C1_atomicity_witness :
    (decideApplicationApprove 0 7 dbPendingApp).1 = Except.ok () ∧
    ((decideApplicationApprove 0 7 dbPendingApp).2.applications.filter
        (fun x => x.campaignId == 0 && x.talentId == 7)) =
      [⟨1, 0, 7, AppStatus.approved⟩] ∧
    ordersFor 0 7 (decideApplicationApprove 0 7 dbPendingApp).2 =
      [⟨2, 0, 7, 1, 100, OrderStatus.pending_shipment, none, none⟩] ∧
    holdsFor 2 (decideApplicationApprove 0 7 dbPendingApp).2 =
      [⟨3, 1, TxType.debit, 100, "Payment hold for campaign", some 2⟩] :=
  C1_atomicity_amended dbPendingApp 0 7 ⟨0, 1, 100, CampaignStatus.active⟩
    ⟨1, 0, 7, AppStatus.pending⟩ (by decide) (by decide) (by decide) (by decide)

/-- Claim C2, counterexample: release is not at-most-once.  Starting
from one order awaiting release, the first `release` completes the
order; invoking `release` again on the already-completed order succeeds
(no AlreadyReleased failure exists in the code) and appends a second
credit transaction and a second earning for the same order. -/
theorem C2_release_counterexample :
    (afterRelease 0 dbReviewSubmitted).orders =
      [⟨0, 0, 7, 1, 100, OrderStatus.completed, none, none⟩] ∧
    (creditsFor 0 (afterRelease 0 dbReviewSubmitted)).length = 1 ∧
    (release 0 (afterRelease 0 dbReviewSubmitted)).1 = Except.ok () ∧
    (creditsFor 0 (afterRelease 0 (afterRelease 0 dbReviewSubmitted))).length = 2 ∧
    (earningsFor 0 (afterRelease 0 (afterRelease 0 dbReviewSubmitted))).length = 2 := by
  decide

/-- Claim C2, amended: invoking release twice for the same orderId
succeeds both times — the ledger primitives append unconditionally and
no AlreadyReleased guard exists — leaving two credit transactions and
two earnings for the order instead of one. -/
theorem C2_release_amended (db : DB) (orderId : Nat) (o : Order)
    (h : db.orders.filter (fun x => x.id == orderId) = [o]) :
    ∃ db1 db2,
      release orderId db = (Except.ok (), db1) ∧
      release orderId db1 = (Except.ok (), db2) ∧
      (creditsFor orderId db2).length = (creditsFor orderId db).length + 2 ∧
      (earningsFor orderId db2).length = (earningsFor orderId db).length + 2 := by
  obtain ⟨db1, e1, f1, c1, g1⟩ := releaseStep db orderId o h
  obtain ⟨db2, e2, f2, c2, g2⟩ := releaseStep db1 orderId _ f1
  refine ⟨db1, db2, e1, e2, ?_, ?_⟩
  · omega
  · omega

/-- Witness for the amended claim C2 on the concrete one-order state. -/
theorem C2_release_witness :
    ∃ db1 db2,
      release 0 dbReviewSubmitted = (Except.ok (), db1) ∧
      release 0 db1 = (Except.ok (), db2) ∧
      (creditsFor 0 db2).length = (creditsFor 0 dbReviewSubmitted).length + 2 ∧
      (earningsFor 0 db2).length = (earningsFor 0 dbReviewSubmitted).length + 2 :=
  C2_release_amended dbReviewSubmitted 0
    ⟨0, 0, 7, 1, 100, OrderStatus.review_submitted, none, none⟩ (by decide)

/-- Claim C3, counterexample: on `dbLowBalance` — campaign price 100,
founder ledger balance 50 — the status update that implements
application approval succeeds anyway and mutates the state; it does not
fail with InsufficientFunds (no such error exists in the code) and the
application does not remain pending. -/
theorem C3_insufficient_funds_counterexample :
    dbLowBalance.campaigns.map (fun c => c.price) = [100] ∧
    specLedgerBalance 1 dbLowBalance.transactions = 50 ∧
    (updateApplicationStatus 0 7 AppStatus.approved dbLowBalance).1 =
      Except.ok ⟨1, 0, 7, AppStatus.approved⟩ ∧
    (updateApplicationStatus 0 7 AppStatus.approved dbLowBalance).2.applications =
      [⟨1, 0, 7, AppStatus.approved⟩] := by
  decide

/-- Claim C3, amended: `updateApplicationStatus` performs no balance
check of any kind — with exactly one application on file for the pair,
approving succeeds and marks the application approved whatever the
founder ledger holds; the operation itself creates no order and appends
no transaction (those are separate calls). -/
theorem C3_approval_no_balance_check (db : DB) (campaignId talentId : Nat)
    (a : Application)
    (ha : db.applications.filter
      (fun x => x.campaignId == campaignId && x.talentId == talentId) = [a]) :
    (updateApplicationStatus campaignId talentId AppStatus.approved db).1 =
      Except.ok { a with status := AppStatus.approved } ∧
    ((updateApplicationStatus campaignId talentId AppStatus.approved db).2.applications.filter
        (fun x => x.campaignId == campaignId && x.talentId == talentId)) =
      [{ a with status := AppStatus.approved }] ∧
    (updateApplicationStatus campaignId talentId AppStatus.approved db).2.orders = db.orders ∧
    (updateApplicationStatus campaignId talentId AppStatus.approved db).2.transactions =
      db.transactions := by
  have h1 : updateApplicationStatus campaignId talentId AppStatus.approved db =
      (Except.ok { a with status := AppStatus.approved },
       { db with applications := db.applications.map (fun x => if x.campaignId == campaignId && x.talentId == talentId then { x with status := AppStatus.approved } else x) }) := by
    simp only [updateApplicationStatus]
    rw [ha]
  rw [h1]
  refine ⟨rfl, ?_, rfl, rfl⟩
  have hpt : ∀ x : Application,
      ((if x.campaignId == campaignId && x.talentId == talentId then
        { x with status := AppStatus.approved } else x).campaignId == campaignId &&
       (if x.campaignId == campaignId && x.talentId == talentId then
        { x with status := AppStatus.approved } else x).talentId == talentId) =
      (x.campaignId == campaignId && x.talentId == talentId) := by
    intro x
    by_cases hx : (x.campaignId == campaignId && x.talentId == talentId) = true
    · simp [hx]
    · simp [hx]
  have hcomm := filter_map_invar
    (fun x : Application => if x.campaignId == campaignId && x.talentId == talentId then { x with status := AppStatus.approved } else x)
    (fun x => x.campaignId == campaignId && x.talentId == talentId)
    db.applications hpt
  simp only at hcomm ⊢
  rw [hcomm, ha]
  have hp := pred_of_filter_singleton _ _ _ ha
  simp only [List.map_cons, List.map_nil]
  rw [if_pos hp]

/-- Witness for the amended claim C3 on the low-balance state. -/
theorem C3_approval_no_balance_check_witness :
    (updateApplicationStatus 0 7 AppStatus.approved dbLowBalance).1 =
      Except.ok ⟨1, 0, 7, AppStatus.approved⟩ ∧
    ((updateApplicationStatus 0 7 AppStatus.approved dbLowBalance).2.applications.filter
        (fun x => x.campaignId == 0 && x.talentId == 7)) =
      [⟨1, 0, 7, AppStatus.approved⟩] ∧
    (updateApplicationStatus 0 7 AppStatus.approved dbLowBalance).2.orders =
      dbLowBalance.orders ∧
    (updateApplicationStatus 0 7 AppStatus.approved dbLowBalance).2.transactions =
      dbLowBalance.transactions :=
  C3_approval_no_balance_check dbLowBalance 0 7 ⟨1, 0, 7, AppStatus.pending⟩ (by decide)

/-- Claim C4, counterexample: the exposed walletBalance is the cached
profile column, not the signed ledger sum — a profile caching 100 is
exposed as 100 even when the ledger sums to 50 — and the modal
totalSpent adds credit and debit amounts alike (30 for a 10 credit plus
a 20 debit, whose signed sum is -10). -/
theorem C4_balance_counterexample :
    (convertProfileToUser profileCached).walletBalance = 100 ∧
    specLedgerBalance 1 txsOneCredit = 50 ∧
    (convertProfileToUser profileCached).walletBalance ≠ specLedgerBalance 1 txsOneCredit ∧
    totalSpent 1 txsMixed = 30 ∧
    specLedgerBalance 1 txsMixed = -10 ∧
    totalSpent 1 txsMixed ≠ specLedgerBalance 1 txsMixed := by
  decide

/-- Claim C4, amended: the balance the program exposes is read from the
cached profile field (NULL mapped to 0), independent of the transaction
log, and the modal totalSpent equals the credit sum plus the debit sum
of the founder transactions — not the signed ledger balance, which is
the credit sum minus the debit sum. -/
theorem C4_balance_exposure (p : ProfileRow) (founderId : Nat)
    (txs : List Transaction) :
    (convertProfileToUser p).walletBalance = p.wallet_balance.getD 0 ∧
    totalSpent founderId txs =
      creditSum (userTransactions founderId txs) + debitSum (userTransactions founderId txs) ∧
    specLedgerBalance founderId txs =
      creditSum (userTransactions founderId txs) - debitSum (userTransactions founderId txs) := by
  refine ⟨rfl, ?_, rfl⟩
  simp only [totalSpent]
  rw [foldl_add_amount, amount_sum_split]
  ring

/-- Claim C5, counterexample: `updateOrder` happily moves an order out
of the terminal completed status straight back to pending_shipment,
succeeding instead of failing with InvalidTransition and mutating the
stored row. -/
theorem C5_transition_counterexample :
    dbCompletedOrder.orders =
      [⟨0, 0, 7, 1, 100, OrderStatus.completed, none, none⟩] ∧
    (updateOrder 0 ⟨some OrderStatus.pending_shipment, none, none⟩ dbCompletedOrder).1 =
      Except.ok ⟨0, 0, 7, 1, 100, OrderStatus.pending_shipment, none, none⟩ ∧
    (updateOrder 0 ⟨some OrderStatus.pending_shipment, none, none⟩ dbCompletedOrder).2.orders =
      [⟨0, 0, 7, 1, 100, OrderStatus.pending_shipment, none, none⟩] := by
  decide

/-- Claim C5, amended: `updateOrder` enforces no state machine at all.
For any stored order and any target status — prior state, event order
and terminal statuses notwithstanding — the update succeeds and writes
the requested status; the only failure mode is a row-count error when
no single row matches the id. -/
theorem C5_updateOrder_unvalidated (db : DB) (orderId : Nat) (s : OrderStatus)
    (o : Order)
    (h : db.orders.filter (fun x => x.id == orderId) = [o]) :
    (updateOrder orderId ⟨some s, none, none⟩ db).1 = Except.ok { o with status := s } ∧
    ((updateOrder orderId ⟨some s, none, none⟩ db).2.orders.filter
      (fun x => x.id == orderId)) = [{ o with status := s }] := by
  have hau : ∀ x : Order,
      applyOrderUpdates ⟨some s, none, none⟩ x = { x with status := s } := by
    intro x; rfl
  have h1 : updateOrder orderId ⟨some s, none, none⟩ db =
      (Except.ok { o with status := s },
       { db with orders := db.orders.map (fun x => if x.id == orderId then { x with status := s } else x) }) := by
    simp only [updateOrder]
    rw [h]
    simp [hau]
  rw [h1]
  refine ⟨rfl, ?_⟩
  have hpt : ∀ x : Order,
      ((if x.id == orderId then { x with status := s } else x).id == orderId) =
        (x.id == orderId) := by
    intro x
    by_cases hx : (x.id == orderId) = true
    · simp [hx]
    · simp [hx]
  have hcomm := filter_map_invar
    (fun x : Order => if x.id == orderId then { x with status := s } else x)
    (fun x => x.id == orderId) db.orders hpt
  simp only at hcomm ⊢
  rw [hcomm, h]
  have hp := pred_of_filter_singleton _ _ _ h
  simp only [List.map_cons, List.map_nil]
  rw [if_pos hp]

/-- Witness for the amended claim C5: the completed order is moved to
shipped on request. -/
theorem C5_updateOrder_unvalidated_witness :
    (updateOrder 0 ⟨some OrderStatus.shipped, none, none⟩ dbCompletedOrder).1 =
      Except.ok ⟨0, 0, 7, 1, 100, OrderStatus.shipped, none, none⟩ ∧
    ((updateOrder 0 ⟨some OrderStatus.shipped, none, none⟩ dbCompletedOrder).2.orders.filter
      (fun x => x.id == 0)) = [⟨0, 0, 7, 1, 100, OrderStatus.shipped, none, none⟩] :=
  C5_updateOrder_unvalidated dbCompletedOrder 0 OrderStatus.shipped
    ⟨0, 0, 7, 1, 100, OrderStatus.completed, none, none⟩ (by decide)

/-- Claim C6, counterexample: a talent whose previous application was
rejected cannot apply again — `applyCampaign` rejects the pair because
an application of any status counts as a duplicate — while a campaign
that is merely paused still accepts applications, because the campaign
status is never checked and no CampaignNotActive failure exists. -/
theorem C6_apply_counterexample :
    dbRejectedApplicant.applications = [⟨1, 0, 7, AppStatus.rejected⟩] ∧
    (applyCampaign 0 7 dbRejectedApplicant).1 = Except.error ApiError.alreadyApplied ∧
    dbPausedCampaign.campaigns = [⟨0, 1, 100, CampaignStatus.paused⟩] ∧
    (applyCampaign 0 7 dbPausedCampaign).1 = Except.ok ⟨1, 0, 7, AppStatus.pending⟩ := by
  decide

/-- Claim C6, amended: `applyCampaign` fails with the already-applied
error exactly when any application — of any status, rejected included —
exists for the (campaignId, talentId) pair; the campaign status is
never consulted, and when no application exists the call succeeds and
appends a pending application whatever the campaign status is. -/
theorem C6_applyCampaign_behavior (db : DB) (campaignId talentId : Nat) :
    ((applyCampaign campaignId talentId db).1 = Except.error ApiError.alreadyApplied ↔
      db.applications.filter
        (fun x => x.campaignId == campaignId && x.talentId == talentId) ≠ []) ∧
    (db.applications.filter
        (fun x => x.campaignId == campaignId && x.talentId == talentId) = [] →
      (applyCampaign campaignId talentId db).1 =
        Except.ok ⟨db.nextId, campaignId, talentId, AppStatus.pending⟩ ∧
      (applyCampaign campaignId talentId db).2.applications =
        db.applications ++ [⟨db.nextId, campaignId, talentId, AppStatus.pending⟩]) := by
  cases hf : db.applications.filter
      (fun x => x.campaignId == campaignId && x.talentId == talentId) with
  | nil =>
    constructor
    · simp [applyCampaign, hf]
    · intro _
      constructor
      · simp [applyCampaign, hf]
      · simp [applyCampaign, hf]
  | cons y t =>
    constructor
    · simp [applyCampaign, hf]
    · intro hcon
      cases hcon

/-- Witness for the amended claim C6: applying to the paused campaign
with no prior application succeeds with a pending application. -/
theorem C6_applyCampaign_behavior_witness :
    (applyCampaign 0 7 dbPausedCampaign).1 = Except.ok ⟨1, 0, 7, AppStatus.pending⟩ ∧
    (applyCampaign 0 7 dbPausedCampaign).2.applications = [⟨1, 0, 7, AppStatus.pending⟩] :=
  (C6_applyCampaign_behavior dbPausedCampaign 0 7).2 (by decide)

/-- Claim C7, counterexample: the order-change handler performs no
serverTimestamp comparison.  With the local mirror holding the newer
snapshot (timestamp 10), a notification carrying the older snapshot
(timestamp 5) is still applied — the handler replaces local state with
the refetch result — so the local state regresses to the older
snapshot, where the merge rule of the spec would have kept the newer
one; processing T1 then T2 ends in the last refetch result, not in the
snapshot with the newest timestamp. -/
theorem C7_sync_counterexample :
    notifOld.snapshot.serverTimestamp < snapNew.serverTimestamp ∧
    handleOrderChange (some snapNew) notifOld (some snapOld) = some snapOld ∧
    handleOrderChange (some snapNew) notifOld (some snapOld) ≠ some snapNew ∧
    specMergeRule (some snapNew) notifOld.snapshot = some snapNew ∧
    processOrderNotifications none [(notifNew, some snapNew), (notifOld, some snapOld)] =
      some snapOld := by
  decide

/-- Claim C7, amended: the reconciliation is wholesale refetch, not
last-writer-wins by timestamp — after any sequence of order-change
notifications the local snapshot equals whatever the final refetch
returned, regardless of every notification timestamp and of the
previously held local state.  The claimed outcome holds only insofar as
the last refetch returns the newest server row. -/
theorem C7_sync_refetch (localSnap : Option OrderSnapshot)
    (events : List (OrderChangePayload × Option OrderSnapshot))
    (n : OrderChangePayload) (lastFetch : Option OrderSnapshot) :
    processOrderNotifications localSnap (events ++ [(n, lastFetch)]) = lastFetch := by
  simp [processOrderNotifications, List.foldl_append, handleOrderChange]

/-- Claim C8, counterexample: when the storage removal fails, the
reference removal from the order row is never attempted — the function
rethrows before reaching the database step — refuting that both
required operations are attempted on every invocation. -/
theorem C8_delete_counterexample :
    extractStoragePath pathValid = some ["orders", "file.png"] ∧
    (deleteReviewMedia 0 "u1" pathValid (Except.error "storage down") dbTwoMedia).1 =
      Except.error "storage down" ∧
    (deleteReviewMedia 0 "u1" pathValid (Except.error "storage down") dbTwoMedia).2 =
      ⟨true, false⟩ := by
  decide

/-- Claim C8, amended: `deleteReviewMedia` attempts the storage removal
first and attempts the database reference removal only when the storage
removal succeeded; every failure of an attempted operation is rethrown
to the caller, never swallowed, and on full success the url is removed
from the order row (written back as NULL when nothing remains) with the
rest of the database untouched. -/
theorem C8_deleteReviewMedia_behavior (orderId : Nat) (mediaUrl : String)
    (pathParts : List String) (storageOutcome : Except String Unit) (db : DB)
    (fp : List String) (o : Order)
    (hp : extractStoragePath pathParts = some fp) :
    (∀ m, storageOutcome = Except.error m →
      (deleteReviewMedia orderId mediaUrl pathParts storageOutcome db).1 = Except.error m ∧
      (deleteReviewMedia orderId mediaUrl pathParts storageOutcome db).2 = ⟨true, false⟩) ∧
    (storageOutcome = Except.ok () →
      db.orders.filter (fun x => x.id == orderId) = [o] →
      (deleteReviewMedia orderId mediaUrl pathParts storageOutcome db).2 = ⟨true, true⟩ ∧
      ∃ d, (deleteReviewMedia orderId mediaUrl pathParts storageOutcome db).1 = Except.ok d ∧
        d.orders.filter (fun x => x.id == orderId) =
          [{ o with reviewMedia := removeUrl mediaUrl o.reviewMedia }] ∧
        d.transactions = db.transactions ∧ d.earnings = db.earnings) := by
  constructor
  · intro m hm
    subst hm
    constructor
    · simp [deleteReviewMedia, hp]
    · simp [deleteReviewMedia, hp]
  · intro hok hof
    subst hok
    have h1 : deleteReviewMedia orderId mediaUrl pathParts (Except.ok ()) db =
        (Except.ok { db with orders := db.orders.map (fun x => if x.id == orderId then { x with reviewMedia := removeUrl mediaUrl o.reviewMedia } else x) },
         ⟨true, true⟩) := by
      simp only [deleteReviewMedia, hp]
      rw [hof]
    rw [h1]
    refine ⟨rfl, _, rfl, ?_, rfl, rfl⟩
    have hpt : ∀ x : Order,
        ((if x.id == orderId then { x with reviewMedia := removeUrl mediaUrl o.reviewMedia } else x).id == orderId) = (x.id == orderId) := by
      intro x
      by_cases hx : (x.id == orderId) = true
      · simp [hx]
      · simp [hx]
    have hcomm := filter_map_invar
      (fun x : Order => if x.id == orderId then { x with reviewMedia := removeUrl mediaUrl o.reviewMedia } else x)
      (fun x => x.id == orderId) db.orders hpt
    simp only at hcomm ⊢
    rw [hcomm, hof]
    have hq := pred_of_filter_singleton _ _ _ hof
    simp only [List.map_cons, List.map_nil]
    rw [if_pos hq]

/-- Witness for the amended claim C8: a failing storage removal is
reported with the reference removal unattempted, and a succeeding
invocation removes the last media reference, clearing the column. -/
theorem C8_deleteReviewMedia_behavior_witness :
    ((deleteReviewMedia 0 "u1" pathValid (Except.error "storage down") dbTwoMedia).1 =
      Except.error "storage down" ∧
     (deleteReviewMedia 0 "u1" pathValid (Except.error "storage down") dbTwoMedia).2 =
      ⟨true, false⟩) ∧
    ((deleteReviewMedia 0 "u1" pathValid (Except.ok ()) dbOneMedia).2 = ⟨true, true⟩ ∧
     ∃ d, (deleteReviewMedia 0 "u1" pathValid (Except.ok ()) dbOneMedia).1 = Except.ok d ∧
       d.orders.filter (fun x => x.id == 0) =
         [⟨0, 0, 7, 1, 100, OrderStatus.review_submitted, none, none⟩] ∧
       d.transactions = dbOneMedia.transactions ∧ d.earnings = dbOneMedia.earnings) :=
  ⟨(C8_deleteReviewMedia_behavior 0 "u1" pathValid (Except.error "storage down")
      dbTwoMedia ["orders", "file.png"]
      ⟨0, 0, 7, 1, 100, OrderStatus.review_submitted, none, none⟩
      (by decide)).1 "storage down" rfl,
   (C8_deleteReviewMedia_behavior 0 "u1" pathValid (Except.ok ())
      dbOneMedia ["orders", "file.png"]
      ⟨0, 0, 7, 1, 100, OrderStatus.review_submitted, none, some [⟨"u1", "image"⟩]⟩
      (by decide)).2 rfl (by decide)⟩

/-- Claim C9, confirmed: in `refreshData` every data source that fails
replaces its collection with the empty list and every source that
succeeds replaces its collection wholesale with the fetched value; the
previously held collections never influence the outcome, in the admin
branch and the non-admin branch alike, so a transient per-source fetch
failure wipes that part of the local mirror. -/
theorem C9_refresh_wipes (prev prev2 : LocalMirror) (r : AdminFetchResults)
    (ru : UserFetchResults) (isFounder : Bool) :
    refreshDataAdmin prev r = refreshDataAdmin prev2 r ∧
    refreshDataUser isFounder prev ru = refreshDataUser isFounder prev2 ru ∧
    (∀ e, r.ordersResult = Except.error e → (refreshDataAdmin prev r).orders = []) ∧
    (∀ v, r.ordersResult = Except.ok v → (refreshDataAdmin prev r).orders = v) ∧
    (∀ e, r.transactionsResult = Except.error e →
      (refreshDataAdmin prev r).transactions = []) ∧
    (∀ v, r.transactionsResult = Except.ok v →
      (refreshDataAdmin prev r).transactions = v) ∧
    (∀ e, ru.ordersResult = Except.error e →
      (refreshDataUser isFounder prev ru).orders = []) ∧
    (∀ v, ru.ordersResult = Except.ok v →
      (refreshDataUser isFounder prev ru).orders = v) ∧
    (refreshDataUser isFounder prev ru).founders = [] ∧
    (isFounder = false → (refreshDataUser isFounder prev ru).talents = []) := by
  refine ⟨rfl, rfl, ?_, ?_, ?_, ?_, ?_, ?_, rfl, ?_⟩
  · intro e h; simp [refreshDataAdmin, settleFetch, h]
  · intro v h; simp [refreshDataAdmin, settleFetch, h]
  · intro e h; simp [refreshDataAdmin, settleFetch, h]
  · intro v h; simp [refreshDataAdmin, settleFetch, h]
  · intro e h; simp [refreshDataUser, settleFetch, h]
  · intro v h; simp [refreshDataUser, settleFetch, h]
  · intro h; simp [refreshDataUser, h]

/-- Witness for claim C9: with the orders fetch rejected, the refreshed
mirror holds no orders although the previous mirror held one, and the
previous mirror is irrelevant to the outcome. -/
theorem C9_refresh_wipes_witness :
    refreshDataAdmin mirrorPrev adminResultsOrdersFailed =
      refreshDataAdmin ⟨[], [], [], [], [], [], []⟩ adminResultsOrdersFailed ∧
    (refreshDataAdmin mirrorPrev adminResultsOrdersFailed).orders = [] ∧
    (refreshDataUser true mirrorPrev userResultsOrdersFailed).orders = [] :=
  ⟨(C9_refresh_wipes mirrorPrev ⟨[], [], [], [], [], [], []⟩
      adminResultsOrdersFailed userResultsOrdersFailed true).1,
   (C9_refresh_wipes mirrorPrev mirrorPrev
      adminResultsOrdersFailed userResultsOrdersFailed true).2.2.1 "network" rfl,
   (C9_refresh_wipes mirrorPrev mirrorPrev
      adminResultsOrdersFailed userResultsOrdersFailed true).2.2.2.2.2.2.1 "network" rfl⟩

/-- Claim C10, confirmed: the converted order model carries a
reviewSubmission exactly when the stored review_media is a non-empty
array — NULL and the empty array both convert to none, a present
submission always holds at least one media item and mirrors the stored
array — and a successful `deleteReviewMedia` never leaves the updated
row holding an empty media list, because the last removal writes NULL. -/
theorem C10_reviewSubmission_nonempty (o : Order) (orderId : Nat)
    (mediaUrl : String) (pathParts : List String)
    (storageOutcome : Except String Unit) (db d : DB) :
    ((convertOrderToApp o).reviewSubmission = none ↔
      (o.reviewMedia = none ∨ o.reviewMedia = some [])) ∧
    (∀ rs, (convertOrderToApp o).reviewSubmission = some rs →
      rs.media ≠ [] ∧ o.reviewMedia = some rs.media) ∧
    ((deleteReviewMedia orderId mediaUrl pathParts storageOutcome db).1 = Except.ok d →
      ∀ x ∈ d.orders, (x.id == orderId) = true → x.reviewMedia ≠ some []) := by
  refine ⟨?_, ?_, ?_⟩
  · cases hrm : o.reviewMedia with
    | none => simp [convertOrderToApp, hrm]
    | some l =>
      cases l with
      | nil => simp [convertOrderToApp, hrm]
      | cons m t => simp [convertOrderToApp, hrm]
  · intro rs hrs
    cases hrm : o.reviewMedia with
    | none => simp [convertOrderToApp, hrm] at hrs
    | some l =>
      cases l with
      | nil => simp [convertOrderToApp, hrm] at hrs
      | cons m t =>
        simp only [convertOrderToApp, hrm] at hrs
        simp at hrs
        constructor
        · rw [← hrs]; simp
        · rw [← hrs]
  · intro hok x hx hid
    cases hE : extractStoragePath pathParts with
    | none => simp [deleteReviewMedia, hE] at hok
    | some fp =>
      cases storageOutcome with
      | error m => simp [deleteReviewMedia, hE] at hok
      | ok u =>
        cases hf : db.orders.filter (fun y => y.id == orderId) with
        | nil => simp [deleteReviewMedia, hE, hf] at hok
        | cons y t =>
          cases t with
          | cons z t2 => simp [deleteReviewMedia, hE, hf] at hok
          | nil =>
            simp only [deleteReviewMedia, hE, hf] at hok
            have hd : d = { db with orders := db.orders.map (fun x2 => if x2.id == orderId then { x2 with reviewMedia := removeUrl mediaUrl y.reviewMedia } else x2) } := by
              cases hok
              rfl
            subst hd
            obtain ⟨y0, hy0, rfl⟩ := List.mem_map.mp hx
            by_cases hid0 : (y0.id == orderId) = true
            · simp only [hid0, if_true]
              exact removeUrl_ne_some_nil _ _
            · simp only [hid0, if_false] at hid ⊢
              exact absurd hid hid0

/-- Witness for claim C10: an order storing an empty media array
converts with no reviewSubmission, and the state left by removing the
last media item of order 0 holds no empty media list. -/
theorem C10_reviewSubmission_nonempty_witness :
    (convertOrderToApp ⟨0, 0, 7, 1, 100, OrderStatus.review_submitted, none,
      some []⟩).reviewSubmission = none ∧
    (∀ x ∈ dbOneMediaCleared.orders, (x.id == 0) = true → x.reviewMedia ≠ some []) :=
  ⟨(C10_reviewSubmission_nonempty
      ⟨0, 0, 7, 1, 100, OrderStatus.review_submitted, none, some []⟩
      0 "u1" pathValid (Except.ok ()) dbOneMedia dbOneMediaCleared).1.mpr (Or.inr rfl),
   (C10_reviewSubmission_nonempty
      ⟨0, 0, 7, 1, 100, OrderStatus.review_submitted, none, some []⟩
      0 "u1" pathValid (Except.ok ()) dbOneMedia dbOneMediaCleared).2.2 (by decide)⟩

end GK
